import Mathlib

/-!
Shallow embedding of the challenge lifecycle and ceremony verification
engine of the webbauthn-example repository (backend/src/auth/auth.service.ts
in its two variants, backend/src/redis/redis.service.ts, and the entity
files), together with proofs about it. All functions are translated
directly from the TypeScript source; the external Signature Verifier
(@simplewebauthn/server) is an external collaborator whose per-call outcome
is passed in as data.
-/

namespace Webauthn

/-- One stored entry of the in-memory challenge map of the Map-based
AuthService variant: the challenge string, the storing time in
milliseconds, and the optional user id stored by the email login flow. -/
structure ChallengeEntry where
  challenge : String
  timestamp : Nat
  userId : Option String := none
  deriving DecidableEq

/-- The in-memory challenge map, modelled as an association list. A
JavaScript Map holds at most one value per key, so insertion replaces any
previous binding. -/
abbrev ChallengeMap := List (String × ChallengeEntry)

/-- Map.set: bind the key, replacing any previous binding. -/
def mapSet (m : ChallengeMap) (key : String) (e : ChallengeEntry) : ChallengeMap :=
  (key, e) :: m.filter (fun p => p.1 != key)

/-- Map.get: look the key up. -/
def mapGet (m : ChallengeMap) (key : String) : Option ChallengeEntry :=
  (m.find? (fun p => p.1 == key)).map Prod.snd

/-- Map.delete: remove the binding of the key. -/
def mapDelete (m : ChallengeMap) (key : String) : ChallengeMap :=
  m.filter (fun p => p.1 != key)

/-- The five-minute expiry constant of the Map-based variant, in
milliseconds (auth.service.ts constructor). -/
def expirationTime : Nat := 300000

/-- One tick, at time now, of the setInterval sweep installed by the
Map-based variant constructor: delete every entry strictly older than
expirationTime. -/
def sweep (now : Nat) (m : ChallengeMap) : ChallengeMap :=
  m.filter (fun p => decide (now - p.2.timestamp ≤ expirationTime))

/-- One entry of the Redis store as written by SETEX: the stored value,
the write time in milliseconds, and the time to live in seconds. -/
structure RedisEntry where
  value : String
  storedAt : Nat
  ttlSeconds : Nat
  deriving DecidableEq

/-- The Redis key space used for challenges, modelled as an association
list; a keyed store holds at most one value per key, so a write replaces. -/
abbrev RedisStore := List (String × RedisEntry)

/-- RedisService.setChallenge: SETEX key ttl value, replacing any previous
value and restarting the expiry clock (redis.service.ts). -/
def setChallenge (s : RedisStore) (key challenge : String) (ttlSeconds now : Nat) :
    RedisStore :=
  (key, { value := challenge, storedAt := now, ttlSeconds := ttlSeconds }) ::
    s.filter (fun p => p.1 != key)

/-- RedisService.getChallenge: GET, returning the value only while the key
is live; Redis expires the key ttl seconds after the write. -/
def getChallenge (s : RedisStore) (key : String) (now : Nat) : Option String :=
  match s.find? (fun p => p.1 == key) with
  | none => none
  | some p =>
      if now < p.2.storedAt + p.2.ttlSeconds * 1000 then some p.2.value else none

/-- RedisService.deleteChallenge: DEL key. -/
def deleteChallenge (s : RedisStore) (key : String) : RedisStore :=
  s.filter (fun p => p.1 != key)

/-- One row of the credentials table (credential.entity.ts). -/
structure Credential where
  id : String
  credentialId : String
  publicKey : String
  counter : Nat
  deviceType : String
  backedUp : Bool
  userId : String
  createdAt : Nat
  deriving DecidableEq

/-- One row of the users table (user.entity.ts); password holds the bcrypt
hash. -/
structure User where
  id : String
  firstName : String
  lastName : String
  email : String
  password : String
  deriving DecidableEq

/-- The relational database. The user.credentials relation of TypeORM is
the set of credential rows whose userId column matches the user id. -/
structure Db where
  users : List User
  credentials : List Credential
  deriving DecidableEq

/-- userRepository.findOne by id. -/
def findUserById (db : Db) (userId : String) : Option User :=
  db.users.find? (fun u => u.id == userId)

/-- userRepository.findOne by email. -/
def findUserByEmail (db : Db) (email : String) : Option User :=
  db.users.find? (fun u => u.email == email)

/-- The credentials relation loaded with a user: the rows owned by the
given user id. -/
def credentialsOf (db : Db) (userId : String) : List Credential :=
  db.credentials.filter (fun c => c.userId == userId)

/-- The failure modes of the service, one per thrown Nest exception
message. -/
inductive AuthError where
  | userNotFound
  | invalidUserId
  | invalidCredentials
  | userAlreadyExists
  | noCredentials
  | credentialNotFound
  | challengeNotFound
  | verificationFailed (msg : String)
  deriving DecidableEq

/-- Outcome of one call to the external Signature Verifier
(@simplewebauthn/server): the call either threw, or returned a result
object. -/
inductive VerifierOutcome (α : Type) where
  | threw (msg : String)
  | returned (info : α)
  deriving DecidableEq

/-- The fields of a verifyAuthenticationResponse result that the service
reads. -/
structure AuthVerification where
  verified : Bool
  newCounter : Nat
  deriving DecidableEq

/-- The fields of registrationInfo that the service reads. -/
structure RegInfo where
  credentialID : String
  credentialPublicKey : String
  counter : Nat
  credentialBackedUp : Bool
  deriving DecidableEq

/-- The fields of a verifyRegistrationResponse result that the service
reads. -/
structure RegVerification where
  verified : Bool
  registrationInfo : Option RegInfo
  deriving DecidableEq

/-- The state touched by the Redis-backed AuthService: the SQL database
and the Redis challenge store. -/
structure ServiceState where
  db : Db
  redis : RedisStore
  deriving DecidableEq

/-- getExpectedChallenge of the Redis-backed variant: GET the challenge
stored under type-userId; fail with the challenge-not-found error when it
is absent or expired, otherwise DEL it immediately (one-time use) and
return it. -/
def getExpectedChallenge (st : ServiceState) (now : Nat) (userId ty : String) :
    ServiceState × Except AuthError String :=
  let key := ty ++ "-" ++ userId
  match getChallenge st.redis key now with
  | none => (st, Except.error AuthError.challengeNotFound)
  | some challenge =>
      ({ st with redis := deleteChallenge st.redis key }, Except.ok challenge)

/-- JavaScript truthiness default used by the service: deviceType is
replaced by the string Unknown when the argument is undefined or any other
falsy value, which for strings is exactly the empty string. -/
def jsOrUnknown : Option String → String
  | none => "Unknown"
  | some s => if s = "" then "Unknown" else s

/-- verifyRegistration of the Redis-backed variant: look the user up,
consume the stored registration challenge, run the verifier, and on
success persist exactly one new credential row. The returned state keeps
every mutation performed before a failure, since a thrown exception does
not roll back the challenge deletion. freshId stands for the
registry-assigned uuid of the new row. -/
def verifyRegistration (st : ServiceState) (now : Nat) (userId : String)
    (deviceType : Option String) (freshId : String)
    (verifier : VerifierOutcome RegVerification) :
    ServiceState × Except AuthError Bool :=
  match findUserById st.db userId with
  | none => (st, Except.error AuthError.userNotFound)
  | some _user =>
    match getExpectedChallenge st now userId "reg" with
    | (st1, Except.error e) => (st1, Except.error e)
    | (st1, Except.ok _expectedChallenge) =>
      match verifier with
      | VerifierOutcome.threw msg =>
          (st1, Except.error (AuthError.verificationFailed ("Verification failed: " ++ msg)))
      | VerifierOutcome.returned v =>
        match v.verified, v.registrationInfo with
        | true, some info =>
            let cred : Credential :=
              { id := freshId
                credentialId := info.credentialID
                publicKey := info.credentialPublicKey
                counter := info.counter
                deviceType := jsOrUnknown deviceType
                backedUp := info.credentialBackedUp
                userId := userId
                createdAt := now }
            ({ st1 with db := { st1.db with credentials := st1.db.credentials ++ [cred] } },
             Except.ok true)
        | _, _ =>
            (st1, Except.error (AuthError.verificationFailed "Registration verification failed"))

/-- credentialRepository.save after overwriting the counter field of the
row with the given primary key. -/
def updateCounter (db : Db) (rowId : String) (newCounter : Nat) : Db :=
  { db with credentials :=
      db.credentials.map (fun c => if c.id = rowId then { c with counter := newCounter } else c) }

/-- verifyAuthentication of the Redis-backed variant (dashboard flow):
user lookup, credential lookup by the credentialId the response claims,
challenge consumption, verifier call, then unconditional counter
overwrite with the verifier-reported newCounter. -/
def verifyAuthentication (st : ServiceState) (now : Nat) (userId : String)
    (responseCredentialId : String)
    (verifier : VerifierOutcome AuthVerification) :
    ServiceState × Except AuthError Bool :=
  match findUserById st.db userId with
  | none => (st, Except.error AuthError.userNotFound)
  | some user =>
    match (credentialsOf st.db user.id).find?
        (fun c => c.credentialId == responseCredentialId) with
    | none => (st, Except.error AuthError.credentialNotFound)
    | some credential =>
      match getExpectedChallenge st now userId "auth" with
      | (st1, Except.error e) => (st1, Except.error e)
      | (st1, Except.ok _expectedChallenge) =>
        match verifier with
        | VerifierOutcome.threw msg =>
            (st1, Except.error (AuthError.verificationFailed ("Authentication failed: " ++ msg)))
        | VerifierOutcome.returned v =>
            if v.verified then
              ({ st1 with db := updateCounter st1.db credential.id v.newCounter },
               Except.ok true)
            else
              (st1, Except.error (AuthError.verificationFailed "Authentication verification failed"))

/-- The public profile returned to the login flow: no password field. -/
structure UserProfile where
  id : String
  email : String
  firstName : String
  lastName : String
  deriving DecidableEq

/-- The value returned by verifyAuthenticationByEmail on success. -/
structure LoginVerifyResult where
  verified : Bool
  user : UserProfile
  deriving DecidableEq

/-- verifyAuthenticationByEmail of the Redis-backed variant (login flow):
same steps as verifyAuthentication with the user resolved by email, the
challenge key namespaced by email, and the resolved public profile
returned on success. -/
def verifyAuthenticationByEmail (st : ServiceState) (now : Nat) (email : String)
    (responseCredentialId : String)
    (verifier : VerifierOutcome AuthVerification) :
    ServiceState × Except AuthError LoginVerifyResult :=
  match findUserByEmail st.db email with
  | none => (st, Except.error AuthError.userNotFound)
  | some user =>
    match (credentialsOf st.db user.id).find?
        (fun c => c.credentialId == responseCredentialId) with
    | none => (st, Except.error AuthError.credentialNotFound)
    | some credential =>
      let challengeKey := "auth-email-" ++ email
      match getChallenge st.redis challengeKey now with
      | none => (st, Except.error AuthError.challengeNotFound)
      | some _expectedChallenge =>
        let st1 : ServiceState := { st with redis := deleteChallenge st.redis challengeKey }
        match verifier with
        | VerifierOutcome.threw msg =>
            (st1, Except.error (AuthError.verificationFailed ("Authentication failed: " ++ msg)))
        | VerifierOutcome.returned v =>
            if v.verified then
              ({ st1 with db := updateCounter st1.db credential.id v.newCounter },
               Except.ok { verified := true
                           user := { id := user.id
                                     email := user.email
                                     firstName := user.firstName
                                     lastName := user.lastName } })
            else
              (st1, Except.error (AuthError.verificationFailed "Authentication verification failed"))

/-- deleteCredential: findOne with both the primary key and the owning
userId in one where clause, then remove the found row; fail with the
credential-not-found error when the query returns nothing. -/
def deleteCredential (st : ServiceState) (userId credentialId : String) :
    ServiceState × Except AuthError Bool :=
  match st.db.credentials.find? (fun c => c.id == credentialId && c.userId == userId) with
  | none => (st, Except.error AuthError.credentialNotFound)
  | some credential =>
      ({ st with db := { st.db with
          credentials := st.db.credentials.filter (fun c => c.id != credential.id) } },
       Except.ok true)

/-- The per-credential display fields returned by getUser. -/
structure CredentialView where
  id : String
  deviceType : String
  createdAt : Nat
  deriving DecidableEq

/-- The value returned by getUser: user fields without the password, and
only display fields of each credential. -/
structure UserView where
  id : String
  email : String
  firstName : String
  lastName : String
  credentials : List CredentialView
  deriving DecidableEq

/-- getUser: validate the id string, look the user up with its
credentials, and return it without sensitive data. -/
def getUser (db : Db) (userId : String) : Except AuthError UserView :=
  if userId = "" ∨ userId = "undefined" ∨ userId.trim = "" then
    Except.error AuthError.invalidUserId
  else
    match findUserById db userId with
    | none => Except.error AuthError.userNotFound
    | some user =>
        Except.ok
          { id := user.id
            email := user.email
            firstName := user.firstName
            lastName := user.lastName
            credentials := (credentialsOf db user.id).map
              (fun c => { id := c.id, deviceType := c.deviceType, createdAt := c.createdAt }) }

/-- Replace the stored bcrypt hash of the user with the given id, leaving
every other field and row unchanged. -/
def maskUser (userId newHash : String) (u : User) : User :=
  if u.id = userId then { u with password := newHash } else u

/-- A database identical to db except for one user password hash. -/
def setUserPassword (db : Db) (userId newHash : String) : Db :=
  { db with users := db.users.map (maskUser userId newHash) }

/-- getExpectedChallenge of the Map-based variant: read the map entry and
delete it. The current time is not consulted; expiry of unconsumed
entries is left entirely to the periodic sweep. -/
def memGetExpectedChallenge (m : ChallengeMap) (userId ty : String) :
    ChallengeMap × Except AuthError String :=
  let key := ty ++ "-" ++ userId
  match mapGet m key with
  | none => (m, Except.error AuthError.challengeNotFound)
  | some stored => (mapDelete m key, Except.ok stored.challenge)

/-- One concurrent caller of the Redis-backed challenge consumption,
reduced to its shared-store commands: an awaited GET whose result it
records, then an awaited DEL. Phase 0 is before the GET, phase 1 between
GET and DEL, phase 2 done. -/
structure Caller where
  phase : Nat
  observed : Option String
  deriving DecidableEq

/-- One atomic Redis command of a caller. -/
def stepCaller (s : RedisStore) (key : String) (now : Nat) (c : Caller) :
    RedisStore × Caller :=
  match c.phase with
  | 0 => (s, { phase := 1, observed := getChallenge s key now })
  | 1 => (deleteChallenge s key, { c with phase := 2 })
  | _ => (s, c)

/-- Run two callers under an explicit interleaving: true schedules one
command of the first caller, false one command of the second. -/
def runSchedule (s : RedisStore) (key : String) (now : Nat) (a b : Caller) :
    List Bool → RedisStore × Caller × Caller
  | [] => (s, a, b)
  | true :: rest =>
      let r := stepCaller s key now a
      runSchedule r.1 key now r.2 b rest
  | false :: rest =>
      let r := stepCaller s key now b
      runSchedule r.1 key now a r.2 rest

/-- True when the verifier outcome is one verifyRegistration treats as a
verification failure: the call threw, or returned with verified false or
registrationInfo missing. -/
def regRejects : VerifierOutcome RegVerification → Bool
  | VerifierOutcome.threw _ => true
  | VerifierOutcome.returned v => !v.verified || v.registrationInfo.isNone

/-- True when a result is the VerificationFailed error. -/
def isVerificationFailure {α : Type} : Except AuthError α → Bool
  | Except.error (AuthError.verificationFailed _) => true
  | _ => false

/-- A concrete user row used by the concrete exhibits below. -/
def demoUser : User :=
  { id := "u1", firstName := "Ada", lastName := "L", email := "u1@example.com",
    password := "hash1" }

/-- A concrete credential row owned by demoUser with stored counter 5. -/
def demoCredential : Credential :=
  { id := "row1", credentialId := "cred1", publicKey := "pk1", counter := 5,
    deviceType := "Desktop", backedUp := false, userId := "u1", createdAt := 0 }

/-- A service state with no users and no stored challenges. -/
def emptyState : ServiceState :=
  { db := { users := [], credentials := [] }, redis := [] }

/-- Service state for the counter exhibit: demoUser owns demoCredential and
a live authentication challenge is stored under auth-u1. -/
def c1State : ServiceState :=
  { db := { users := [demoUser], credentials := [demoCredential] },
    redis := setChallenge [] "auth-u1" "chal1" 300 0 }

/-- In-memory challenge map holding one registration challenge stored at
time 100000, hence expired from time 400000 on. -/
def c4Map : ChallengeMap :=
  mapSet [] "reg-u1" { challenge := "c1", timestamp := 100000 }

/-- A Redis store holding one live login challenge. -/
def c5Store : RedisStore := setChallenge [] "auth-email-a@b.c" "ch1" 300 0

/-- Two concurrent consumers of the same key run under the interleaving
GET of the first, GET of the second, DEL of the first, DEL of the second. -/
def c5Run : RedisStore × Caller × Caller :=
  runSchedule c5Store "auth-email-a@b.c" 1000
    { phase := 0, observed := none } { phase := 0, observed := none }
    [true, false, true, false]

/-- Concrete verifier registration output for the exhibits. -/
def c8Info : RegInfo :=
  { credentialID := "cid1", credentialPublicKey := "pkreg", counter := 7,
    credentialBackedUp := true }

/-- Service state for the registration exhibits: demoUser exists with no
credentials and a live registration challenge is stored under reg-u1. -/
def c8State : ServiceState :=
  { db := { users := [demoUser], credentials := [] },
    redis := setChallenge [] "reg-u1" "chalr" 300 0 }

/-- The registration payload (register.dto.ts). -/
structure RegisterDto where
  email : String
  password : String
  firstName : String
  lastName : String
  deriving DecidableEq

/-- The password-free projection of a user returned by register, login
and the login verification flow. -/
def publicProfile (u : User) : UserProfile :=
  { id := u.id, email := u.email, firstName := u.firstName, lastName := u.lastName }

/-- register: refuse an existing email, hash the password with bcrypt
(the external hash function is passed in), save the new user row, and
return it without the password. freshId stands for the generated uuid. -/
def register (db : Db) (dto : RegisterDto) (hash : String → String)
    (freshId : String) : Db × Except AuthError UserProfile :=
  match findUserByEmail db dto.email with
  | some _ => (db, Except.error AuthError.userAlreadyExists)
  | none =>
      let user : User :=
        { id := freshId
          firstName := dto.firstName
          lastName := dto.lastName
          email := dto.email
          password := hash dto.password }
      ({ db with users := db.users ++ [user] },
       Except.ok { id := user.id
                   email := user.email
                   firstName := user.firstName
                   lastName := user.lastName })

/-- login: look the user up by email, check the password with
bcrypt.compare (the external comparison is passed in), and return the
user without the password; both failure modes raise the same
invalid-credentials error. -/
def login (db : Db) (email password : String)
    (compare : String → String → Bool) : Except AuthError UserProfile :=
  match findUserByEmail db email with
  | none => Except.error AuthError.invalidCredentials
  | some user =>
      if compare password user.password then
        Except.ok { id := user.id
                    email := user.email
                    firstName := user.firstName
                    lastName := user.lastName }
      else
        Except.error AuthError.invalidCredentials

/-- Searching for a key in any further filtering of a list from which all
entries with that key were removed finds nothing. -/
theorem find_key_filter_filter_ne {α : Type} (l : List (String × α)) (k : String)
    (q : String × α → Bool) :
    ((l.filter (fun p => p.1 != k)).filter q).find? (fun p => p.1 == k) = none := by
  apply List.find?_eq_none.mpr
  intro p hp
  have h1 := List.mem_filter.mp hp
  have h2 := (List.mem_filter.mp h1.1).2
  simp only [bne_iff_ne, ne_eq] at h2
  simp [h2]

/-- Searching for a key in a list from which all entries with that key
were removed finds nothing. -/
theorem find_key_filter_ne {α : Type} (l : List (String × α)) (k : String) :
    (l.filter (fun p => p.1 != k)).find? (fun p => p.1 == k) = none := by
  apply List.find?_eq_none.mpr
  intro p hp
  have h2 := (List.mem_filter.mp hp).2
  simp only [bne_iff_ne, ne_eq] at h2
  simp [h2]

/-- GET right after SETEX on the same key returns the stored value while
it is live and nothing afterwards. -/
theorem getChallenge_set_self (s : RedisStore) (key c : String) (ttl t0 t1 : Nat) :
    getChallenge (setChallenge s key c ttl t0) key t1
      = if t1 < t0 + ttl * 1000 then some c else none := by
  unfold getChallenge setChallenge
  rw [List.find?_cons_of_pos]
  simp

/-- GET on a key just deleted returns nothing. -/
theorem getChallenge_delete_self (s : RedisStore) (key : String) (t : Nat) :
    getChallenge (deleteChallenge s key) key t = none := by
  unfold getChallenge deleteChallenge
  rw [find_key_filter_ne]

/-- DEL after SETEX on the same key is DEL on the original store. -/
theorem delete_set_self (s : RedisStore) (key c : String) (ttl t0 : Nat) :
    deleteChallenge (setChallenge s key c ttl t0) key = deleteChallenge s key := by
  unfold deleteChallenge setChallenge
  rw [List.filter_cons]
  simp [List.filter_filter]

/-- Filtering for a key after all entries with that key were removed
yields the empty list. -/
theorem filter_key_of_filter_ne {α : Type} (l : List (String × α)) (k : String) :
    (l.filter (fun p => p.1 != k)).filter (fun p => p.1 == k) = [] := by
  rw [List.filter_filter]
  apply List.filter_eq_nil_iff.mpr
  intro p hp
  simp

/-- Claim C1: the claim says a verified assertion whose reported new
counter is at most the stored counter must fail with ReplayDetected and
leave the counter unchanged. The code performs no such comparison: with
stored counter 5 and the verifier reporting verified with newCounter 3,
verifyAuthentication returns ok and overwrites the stored counter
downwards to 3. This contradicts the claim and the comments of the source
itself, which state that the counter must always increase. -/
theorem c1_counter_regression_accepted :
    (3 : Nat) ≤ demoCredential.counter ∧
    (verifyAuthentication c1State 1000 "u1" "cred1"
        (VerifierOutcome.returned { verified := true, newCounter := 3 })).2 = Except.ok true ∧
    ((verifyAuthentication c1State 1000 "u1" "cred1"
        (VerifierOutcome.returned { verified := true, newCounter := 3 })).1.db.credentials.map
        (fun c => c.counter)) = [3] := by
  refine ⟨by decide, rfl, rfl⟩

/-- Claim C4 counterexample: in the Map-based variant a challenge stored
at time 100000 expires at 400000, yet the sweep tick at 300000 keeps it
and getExpectedChallenge never consults the clock, so a take at 450000
(before the next sweep tick at 600000) still returns the challenge
instead of the claimed NotFound. -/
theorem c4_expired_challenge_still_taken :
    sweep 300000 c4Map = c4Map ∧
    100000 + expirationTime < 450000 ∧ 450000 < 600000 ∧
    (memGetExpectedChallenge (sweep 300000 c4Map) "u1" "reg").2 = Except.ok "c1" := by
  refine ⟨rfl, by decide, by decide, rfl⟩

/-- Claim C5: the claim says that of two concurrent completeAuthentication
calls racing on one key holding one live challenge, exactly one observes
the challenge. In the Redis-backed code the consumption is an awaited GET
followed by a separate awaited DEL, so under the interleaving GET, GET,
DEL, DEL both callers observe the same stored challenge and both can then
pass verification, contradicting the at-most-once delivery the claim and
the sources own comments require. -/
theorem c5_both_racing_callers_observe_challenge :
    c5Run.2.1.observed = some "ch1" ∧ c5Run.2.2.observed = some "ch1" ∧
    c5Run.2.1.phase = 2 ∧ c5Run.2.2.phase = 2 := by
  refine ⟨rfl, rfl, rfl, rfl⟩

/-- Claim C2: after storing a challenge for a ceremony key, the first
consumption performed while the record is still live returns exactly that
challenge, and every later consumption before a new put fails with the
challenge-not-found error. -/
theorem c2_challenge_taken_exactly_once (st : ServiceState) (userId ty c : String)
    (ttl t0 t1 : Nat) (hlive : t1 < t0 + ttl * 1000) :
    (getExpectedChallenge
        { st with redis := setChallenge st.redis (ty ++ "-" ++ userId) c ttl t0 }
        t1 userId ty).2 = Except.ok c ∧
    ∀ t2, (getExpectedChallenge
        (getExpectedChallenge
          { st with redis := setChallenge st.redis (ty ++ "-" ++ userId) c ttl t0 }
          t1 userId ty).1 t2 userId ty).2
      = Except.error AuthError.challengeNotFound := by
  constructor
  · simp [getExpectedChallenge, getChallenge_set_self, hlive]
  · intro t2
    simp [getExpectedChallenge, getChallenge_set_self, hlive, delete_set_self,
      getChallenge_delete_self]

/-- Claim C7: storing a challenge twice under the same key leaves exactly
one record for that key, holding the second value; any later read of that
key yields the second challenge while live and nothing otherwise, never
the first challenge. -/
theorem c7_overwrite_last_writer_wins (s : RedisStore) (key c1 c2 : String)
    (ttl1 ttl2 t1 t2 : Nat) :
    (setChallenge (setChallenge s key c1 ttl1 t1) key c2 ttl2 t2).filter
        (fun p => p.1 == key)
      = [(key, { value := c2, storedAt := t2, ttlSeconds := ttl2 })] ∧
    ∀ t, getChallenge (setChallenge (setChallenge s key c1 ttl1 t1) key c2 ttl2 t2) key t
      = if t < t2 + ttl2 * 1000 then some c2 else none := by
  constructor
  · show ((setChallenge (setChallenge s key c1 ttl1 t1) key c2 ttl2 t2).filter
        (fun p => p.1 == key)) = _
    unfold setChallenge
    rw [List.filter_cons]
    simp [filter_key_of_filter_ne, List.filter_filter]
  · intro t
    exact getChallenge_set_self (setChallenge s key c1 ttl1 t1) key c2 ttl2 t2 t

/-- Claim C4 as amended: in the Redis-backed store a consumption attempted
at or after issuedAt plus ttl fails with the challenge-not-found error
even if the record was never taken; in the Map-based variant this holds
only once a sweep tick has run after expiry, since the read itself never
consults the clock. -/
theorem c4_take_after_expiry_fails (st : ServiceState) (userId ty c : String)
    (ttl t0 t1 : Nat) (hexp : t0 + ttl * 1000 ≤ t1)
    (m : ChallengeMap) (e : ChallengeEntry) (tS : Nat)
    (hswe : e.timestamp + expirationTime < tS) :
    (getExpectedChallenge
        { st with redis := setChallenge st.redis (ty ++ "-" ++ userId) c ttl t0 }
        t1 userId ty).2 = Except.error AuthError.challengeNotFound ∧
    (memGetExpectedChallenge (sweep tS (mapSet m (ty ++ "-" ++ userId) e)) userId ty).2
      = Except.error AuthError.challengeNotFound := by
  constructor
  · simp [getExpectedChallenge, getChallenge_set_self, Nat.not_lt.mpr hexp]
  · have hsw : (decide (tS - e.timestamp ≤ expirationTime)) = false := by
      simp only [decide_eq_false_iff_not, not_le]
      omega
    have hkey : (sweep tS (mapSet m (ty ++ "-" ++ userId) e)).find?
        (fun p => p.1 == (ty ++ "-" ++ userId)) = none := by
      unfold sweep mapSet
      rw [List.filter_cons]
      simp only [hsw, Bool.false_eq_true, if_false]
      exact find_key_filter_filter_ne m (ty ++ "-" ++ userId) _
    simp [memGetExpectedChallenge, mapGet, hkey]

/-- Claim C3: when the user exists and a live registration challenge is
stored, a verifier rejection or throw makes completeRegistration fail
with the VerificationFailed error while the database — in particular the
credentials table — is left unchanged, yet the challenge has been
consumed, so any immediate retry fails with the challenge-not-found
error instead. -/
theorem c3_failed_registration_consumes_challenge (st : ServiceState)
    (now now2 : Nat) (userId : String) (dt : Option String) (fid : String)
    (v : VerifierOutcome RegVerification) (u : User) (ch : String)
    (hu : findUserById st.db userId = some u)
    (hch : getChallenge st.redis ("reg-" ++ userId) now = some ch)
    (hrej : regRejects v = true) :
    isVerificationFailure (verifyRegistration st now userId dt fid v).2 = true ∧
    (verifyRegistration st now userId dt fid v).1.db = st.db ∧
    ∀ dt2 fid2 v2,
      (verifyRegistration (verifyRegistration st now userId dt fid v).1
          now2 userId dt2 fid2 v2).2
        = Except.error AuthError.challengeNotFound := by
  have hres : (verifyRegistration st now userId dt fid v).1
      = { st with redis := deleteChallenge st.redis ("reg-" ++ userId) } ∧
      isVerificationFailure (verifyRegistration st now userId dt fid v).2 = true := by
    cases v with
    | threw msg =>
        simp [verifyRegistration, getExpectedChallenge, hu, hch, isVerificationFailure]
    | returned vr =>
        cases hvv : vr.verified with
        | false =>
            simp [verifyRegistration, getExpectedChallenge, hu, hch, hvv,
              isVerificationFailure]
        | true =>
            cases hvi : vr.registrationInfo with
            | none =>
                simp [verifyRegistration, getExpectedChallenge, hu, hch, hvv, hvi,
                  isVerificationFailure]
            | some info =>
                exfalso
                simp [regRejects, hvv, hvi] at hrej
  refine ⟨hres.2, by rw [hres.1], ?_⟩
  intro dt2 fid2 v2
  rw [hres.1]
  simp [verifyRegistration, getExpectedChallenge, hu, getChallenge_delete_self]

/-- Claim C6: in both authentication ceremonies the credential lookup
precedes the challenge consumption, so when the credentialId claimed by
the response matches no credential of the resolved subject the call fails
with the credential-not-found error and the whole state — in particular
the stored challenge — is untouched and available to a later call. -/
theorem c6_credential_lookup_before_challenge (st : ServiceState) (now : Nat)
    (userId email rid : String) (v w : VerifierOutcome AuthVerification)
    (u u2 : User)
    (hu : findUserById st.db userId = some u)
    (hnc : (credentialsOf st.db u.id).find? (fun c => c.credentialId == rid) = none)
    (hu2 : findUserByEmail st.db email = some u2)
    (hnc2 : (credentialsOf st.db u2.id).find? (fun c => c.credentialId == rid) = none) :
    verifyAuthentication st now userId rid v
      = (st, Except.error AuthError.credentialNotFound) ∧
    verifyAuthenticationByEmail st now email rid w
      = (st, Except.error AuthError.credentialNotFound) := by
  constructor
  · simp [verifyAuthentication, hu, hnc]
  · simp [verifyAuthenticationByEmail, hu2, hnc2]

/-- Claim C8 as amended: when the user exists, a live registration
challenge is stored, and the verifier returns verified with registration
info, exactly one new credential row owned by that user is appended, its
counter, credentialId, publicKey and backup flag taken from the verifier
output, its deviceType equal to the supplied device label when that label
is a non-empty string and Unknown when the argument is absent or empty,
and the call returns ok. -/
theorem c8_successful_registration_persists_one_credential (st : ServiceState)
    (now : Nat) (userId : String) (dt : Option String) (fid : String)
    (info : RegInfo) (u : User) (ch : String)
    (hu : findUserById st.db userId = some u)
    (hch : getChallenge st.redis ("reg-" ++ userId) now = some ch) :
    (verifyRegistration st now userId dt fid
        (VerifierOutcome.returned { verified := true, registrationInfo := some info })).2
      = Except.ok true ∧
    (verifyRegistration st now userId dt fid
        (VerifierOutcome.returned
          { verified := true, registrationInfo := some info })).1.db.credentials
      = st.db.credentials ++
        [{ id := fid
           credentialId := info.credentialID
           publicKey := info.credentialPublicKey
           counter := info.counter
           deviceType := jsOrUnknown dt
           backedUp := info.credentialBackedUp
           userId := userId
           createdAt := now }] := by
  constructor
  · simp [verifyRegistration, getExpectedChallenge, hu, hch]
  · simp [verifyRegistration, getExpectedChallenge, hu, hch]

/-- Claim C10: deleteCredential removes a row only when it is owned by the
given user; when no row matches both the credential id and the owner the
call fails with the credential-not-found error and the state — hence
every credential of every user — is unchanged. -/
theorem c10_delete_credential_requires_ownership (st : ServiceState)
    (userId credentialId : String) :
    (st.db.credentials.find? (fun c => c.id == credentialId && c.userId == userId)
        = none →
      deleteCredential st userId credentialId
        = (st, Except.error AuthError.credentialNotFound)) ∧
    (∀ cred,
      st.db.credentials.find? (fun c => c.id == credentialId && c.userId == userId)
        = some cred →
      cred.userId = userId ∧
      deleteCredential st userId credentialId
        = ({ st with db := { st.db with
              credentials := st.db.credentials.filter (fun c => c.id != cred.id) } },
           Except.ok true)) := by
  constructor
  · intro h
    simp [deleteCredential, h]
  · intro cred h
    have hp := List.find?_some h
    simp only [Bool.and_eq_true, beq_iff_eq] at hp
    refine ⟨hp.2, ?_⟩
    simp [deleteCredential, h]

/-- Changing a password hash does not change a user id. -/
theorem maskUser_id (userId newHash : String) (u : User) :
    (maskUser userId newHash u).id = u.id := by
  unfold maskUser
  split <;> rfl

/-- Changing a password hash does not change a user email. -/
theorem maskUser_email (userId newHash : String) (u : User) :
    (maskUser userId newHash u).email = u.email := by
  unfold maskUser
  split <;> rfl

/-- Changing a password hash does not change a first name. -/
theorem maskUser_firstName (userId newHash : String) (u : User) :
    (maskUser userId newHash u).firstName = u.firstName := by
  unfold maskUser
  split <;> rfl

/-- Changing a password hash does not change a last name. -/
theorem maskUser_lastName (userId newHash : String) (u : User) :
    (maskUser userId newHash u).lastName = u.lastName := by
  unfold maskUser
  split <;> rfl

/-- Searching a password-masked user list with a predicate insensitive to
the mask finds the masked version of the user found in the original. -/
theorem find?_map_maskUser (userId newHash : String) (q : User → Bool)
    (l : List User) (hq : ∀ u, q (maskUser userId newHash u) = q u) :
    (l.map (maskUser userId newHash)).find? q
      = (l.find? q).map (maskUser userId newHash) := by
  induction l with
  | nil => rfl
  | cons a l ih =>
      rw [List.map_cons, List.find?_cons, List.find?_cons, hq a]
      cases q a
      · exact ih
      · rfl

/-- Lookup by id commutes with masking one password. -/
theorem findUserById_setUserPassword (db : Db) (uid newHash k : String) :
    findUserById (setUserPassword db uid newHash) k
      = (findUserById db k).map (maskUser uid newHash) := by
  unfold findUserById setUserPassword
  exact find?_map_maskUser uid newHash _ db.users
    (fun u => by rw [maskUser_id])

/-- Lookup by email commutes with masking one password. -/
theorem findUserByEmail_setUserPassword (db : Db) (uid newHash k : String) :
    findUserByEmail (setUserPassword db uid newHash) k
      = (findUserByEmail db k).map (maskUser uid newHash) := by
  unfold findUserByEmail setUserPassword
  exact find?_map_maskUser uid newHash _ db.users
    (fun u => by rw [maskUser_email])

/-- Masking one password leaves the credentials relation unchanged. -/
theorem credentialsOf_setUserPassword (db : Db) (uid newHash x : String) :
    credentialsOf (setUserPassword db uid newHash) x = credentialsOf db x := rfl

/-- Claim C9: public results never include the stored password hash. The
successful result of register is exactly the four public fields of the
new user and is independent of the bcrypt hash function; the successful
result of login is the password-free public profile of the found user;
and changing only one stored bcrypt hash leaves the result of every
getUser call and the value returned by every verifyAuthenticationByEmail
call unchanged, since all four operations return only id, email,
firstName, lastName and the display fields of credentials. -/
theorem c9_password_hash_not_exposed (db : Db) (uid newHash : String) :
    (∀ dto hash fid, findUserByEmail db dto.email = none →
      (register db dto hash fid).2
        = Except.ok { id := fid, email := dto.email,
                      firstName := dto.firstName, lastName := dto.lastName }) ∧
    (∀ dto hash1 hash2 fid,
      (register db dto hash1 fid).2 = (register db dto hash2 fid).2) ∧
    (∀ email pw compare u, findUserByEmail db email = some u →
      compare pw u.password = true →
      login db email pw compare = Except.ok (publicProfile u)) ∧
    (∀ k, getUser (setUserPassword db uid newHash) k = getUser db k) ∧
    (∀ redis now email rid v,
      (verifyAuthenticationByEmail
          { db := setUserPassword db uid newHash, redis := redis } now email rid v).2
        = (verifyAuthenticationByEmail { db := db, redis := redis } now email rid v).2) := by
  refine ⟨?_, ?_, ?_, ?_, ?_⟩
  · intro dto hash fid h
    simp [register, h]
  · intro dto hash1 hash2 fid
    cases h : findUserByEmail db dto.email <;> simp [register, h]
  · intro email pw compare u h hc
    simp [login, h, hc, publicProfile]
  · intro k
    unfold getUser
    split
    · rfl
    · rw [findUserById_setUserPassword]
      cases h : findUserById db k with
      | none => rfl
      | some u =>
          simp only [Option.map_some']
          rw [credentialsOf_setUserPassword]
          simp [maskUser_id, maskUser_email, maskUser_firstName, maskUser_lastName]
  · intro redis now email rid v
    unfold verifyAuthenticationByEmail
    rw [show ({ db := setUserPassword db uid newHash, redis := redis } : ServiceState).db
          = setUserPassword db uid newHash from rfl]
    rw [findUserByEmail_setUserPassword]
    cases h : findUserByEmail db email with
    | none => rfl
    | some u =>
        simp only [Option.map_some']
        rw [credentialsOf_setUserPassword, maskUser_id]
        cases hf : (credentialsOf db u.id).find? (fun c => c.credentialId == rid) with
        | none => rfl
        | some cred =>
            cases hch : getChallenge redis ("auth-email-" ++ email) now with
            | none => rfl
            | some ch =>
                cases v with
                | threw msg => rfl
                | returned vi =>
                    cases hvv : vi.verified
                    · simp [hvv]
                    · simp [hvv, maskUser_id, maskUser_email, maskUser_firstName,
                        maskUser_lastName]

/-- Claim C8 counterexample: the claim says the persisted deviceType
equals the caller-supplied device label, with Unknown only when the
argument is absent. The code defaults on every falsy value, so the
supplied empty-string label is replaced by Unknown. -/
theorem c8_empty_device_label_replaced :
    (ServiceState.db (verifyRegistration c8State 1000 "u1" (some "") "row9"
        (VerifierOutcome.returned
          { verified := true, registrationInfo := some c8Info })).1).credentials.map
      (fun c => c.deviceType) = ["Unknown"] ∧
    (verifyRegistration c8State 1000 "u1" (some "") "row9"
        (VerifierOutcome.returned { verified := true, registrationInfo := some c8Info })).2
      = Except.ok true ∧
    "Unknown" ≠ "" := by
  refine ⟨rfl, rfl, by decide⟩

/-- Witness for claim C2 at a concrete state and key. -/
theorem c2_witness :
    (getExpectedChallenge
        { emptyState with
            redis := setChallenge emptyState.redis ("auth" ++ "-" ++ "u1") "chalw" 300 0 }
        1000 "u1" "auth").2 = Except.ok "chalw" ∧
    (getExpectedChallenge
        (getExpectedChallenge
          { emptyState with
              redis := setChallenge emptyState.redis ("auth" ++ "-" ++ "u1") "chalw" 300 0 }
          1000 "u1" "auth").1 5000 "u1" "auth").2
      = Except.error AuthError.challengeNotFound :=
  ⟨(c2_challenge_taken_exactly_once emptyState "u1" "auth" "chalw" 300 0 1000
      (by decide)).1,
   (c2_challenge_taken_exactly_once emptyState "u1" "auth" "chalw" 300 0 1000
      (by decide)).2 5000⟩

/-- Witness for claim C3 at a concrete state with a throwing verifier. -/
theorem c3_witness :
    isVerificationFailure (verifyRegistration c8State 1000 "u1" none "f1"
        (VerifierOutcome.threw "boom")).2 = true ∧
    (verifyRegistration c8State 1000 "u1" none "f1" (VerifierOutcome.threw "boom")).1.db
      = c8State.db ∧
    (verifyRegistration (verifyRegistration c8State 1000 "u1" none "f1"
        (VerifierOutcome.threw "boom")).1 2000 "u1" none "f2"
        (VerifierOutcome.threw "again")).2 = Except.error AuthError.challengeNotFound := by
  have h := c3_failed_registration_consumes_challenge c8State 1000 2000 "u1" none "f1"
    (VerifierOutcome.threw "boom") demoUser "chalr" rfl rfl rfl
  exact ⟨h.1, h.2.1, h.2.2 none "f2" (VerifierOutcome.threw "again")⟩

/-- Witness for the amended claim C4 at concrete times past expiry. -/
theorem c4_witness :
    (getExpectedChallenge
        { emptyState with
            redis := setChallenge emptyState.redis ("auth" ++ "-" ++ "u1") "cw" 300 0 }
        300000 "u1" "auth").2 = Except.error AuthError.challengeNotFound ∧
    (memGetExpectedChallenge (sweep 300001 (mapSet [] ("auth" ++ "-" ++ "u1")
        { challenge := "cm", timestamp := 0 })) "u1" "auth").2
      = Except.error AuthError.challengeNotFound :=
  c4_take_after_expiry_fails emptyState "u1" "auth" "cw" 300 0 300000 (by decide)
    [] { challenge := "cm", timestamp := 0 } 300001 (by decide)

/-- Witness for claim C6 at a concrete state with no matching credential. -/
theorem c6_witness :
    verifyAuthentication c8State 1000 "u1" "nope" (VerifierOutcome.threw "x")
      = (c8State, Except.error AuthError.credentialNotFound) ∧
    verifyAuthenticationByEmail c8State 1000 "u1@example.com" "nope"
        (VerifierOutcome.threw "x")
      = (c8State, Except.error AuthError.credentialNotFound) :=
  c6_credential_lookup_before_challenge c8State 1000 "u1" "u1@example.com" "nope"
    (VerifierOutcome.threw "x") (VerifierOutcome.threw "x") demoUser demoUser
    rfl rfl rfl rfl

/-- Witness for the amended claim C8 at a concrete successful run. -/
theorem c8_witness :
    (verifyRegistration c8State 1000 "u1" none "row9"
        (VerifierOutcome.returned { verified := true, registrationInfo := some c8Info })).2
      = Except.ok true ∧
    (verifyRegistration c8State 1000 "u1" none "row9"
        (VerifierOutcome.returned
          { verified := true, registrationInfo := some c8Info })).1.db.credentials
      = c8State.db.credentials ++
        [{ id := "row9"
           credentialId := c8Info.credentialID
           publicKey := c8Info.credentialPublicKey
           counter := c8Info.counter
           deviceType := jsOrUnknown none
           backedUp := c8Info.credentialBackedUp
           userId := "u1"
           createdAt := 1000 }] :=
  c8_successful_registration_persists_one_credential c8State 1000 "u1" none "row9"
    c8Info demoUser "chalr" rfl rfl

/-- Witness for claim C10: a wrong owner is refused and nothing changes,
and the owning user can delete the row. -/
theorem c10_witness :
    deleteCredential c1State "u2" "row1"
      = (c1State, Except.error AuthError.credentialNotFound) ∧
    (demoCredential.userId = "u1" ∧
      deleteCredential c1State "u1" "row1"
        = ({ c1State with db := { c1State.db with
              credentials := c1State.db.credentials.filter
                (fun c => c.id != demoCredential.id) } },
           Except.ok true)) :=
  ⟨(c10_delete_credential_requires_ownership c1State "u2" "row1").1 rfl,
   (c10_delete_credential_requires_ownership c1State "u1" "row1").2 demoCredential rfl⟩

/-- Witness for claim C9 at a concrete database, discharging the
hypotheses of the register and login conjuncts. -/
theorem c9_witness :
    (register c1State.db
        { email := "new@x.y", password := "pw", firstName := "N", lastName := "M" }
        (fun s => s ++ "#") "u9").2
      = Except.ok { id := "u9", email := "new@x.y", firstName := "N", lastName := "M" } ∧
    login c1State.db "u1@example.com" "hash1" (fun a b => a == b)
      = Except.ok (publicProfile demoUser) :=
  ⟨(c9_password_hash_not_exposed c1State.db "u1" "h2").1
      { email := "new@x.y", password := "pw", firstName := "N", lastName := "M" }
      (fun s => s ++ "#") "u9" rfl,
   (c9_password_hash_not_exposed c1State.db "u1" "h2").2.2.1
      "u1@example.com" "hash1" (fun a b => a == b) demoUser rfl rfl⟩

end Webauthn
